import Mathlib

/-!
Verification of `fly`'s `execute` command (src/commands/execute.go).

The Go code is embedded shallowly:

* External collaborators (`rc.TargetClient`, `rc.ValidateClient`,
  `config.LoadTaskConfig`, `executehelpers.DetermineInputs` /
  `DetermineOutputs` / `CreateBuild`, `client.BuildEvents`,
  `eventstream.Render`, `executehelpers.Upload` / `Download`,
  `client.AbortBuild`) are oracles collected in an `Env` record: each
  field holds the result the external call would return on this run.
* `Execute` is a function from the command flags and the oracle
  environment to a `RunResult`: the ordered trace of effects performed
  on the main execution path, the final outcome (an error returned to
  the caller, or `os.Exit` with a code), and the traces of the
  goroutines it spawned (the sequential input-upload goroutine and one
  goroutine per output).
* The goroutine bodies (`inputGoroutine`, `outputGoroutine`) are
  functions producing their ordered event traces; the one-shot
  completion channels (`close(inputChan)`, `close(outputChan)`) appear
  as explicit `close` events in those traces.
* `abortOnSignal` consumes the list of interrupt signals delivered
  through the buffered `terminate` channel, in delivery order, together
  with the oracle result of the single `client.AbortBuild` call, and
  returns its stderr/abort trace and the `os.Exit` code it forces, if
  any.
-/

namespace FlyExecute

/-- An input binding as produced by `executehelpers.DetermineInputs`:
a name and a local path (`""` means no local path, so no upload). -/
structure Input where
  name : String
  path : String
deriving DecidableEq, Repr

/-- An output binding as produced by `executehelpers.DetermineOutputs`:
a name and a local path (`""` means no local path, so no download). -/
structure Output where
  name : String
  path : String
deriving DecidableEq, Repr

/-- The task configuration loaded by `config.LoadTaskConfig`; opaque to
the orchestration logic, which only threads it through to `CreateBuild`. -/
structure TaskConfig where
deriving DecidableEq, Repr

/-- The build handle returned by `executehelpers.CreateBuild`
(`atc.Build`): only its `ID` is used by the orchestration. -/
structure Build where
  id : Nat
deriving DecidableEq, Repr

/-- The flags of the `execute` command that the orchestration body reads
(`Privileged` and `Tags` are only forwarded to the `CreateBuild` oracle,
so they do not appear here; `ExcludeIgnored` is forwarded to `Upload`). -/
structure ExecuteCommand where
  excludeIgnored : Bool
deriving DecidableEq, Repr

/-- Oracle environment: the results of every external call this run
would observe, in the order `Execute` makes them. -/
structure Env where
  targetClient : Except String Unit
  validateClient : Except String Unit
  loadTaskConfig : Except String TaskConfig
  determineInputs : Except String (List Input)
  determineOutputs : Except String (List Output)
  createBuild : Except String Build
  buildEvents : Except String Unit
  /-- Modelled from the spec: `eventstream.Render` (package
  `fly/eventstream`, not under src/) blocks until the feed is exhausted
  and returns an integer exit status representing the remote task's
  outcome — 0 on success, any non-zero value on task-level failure — so
  this oracle ranges over all integers. -/
  renderExit : Int
  uploadOk : String → Bool
  downloadOk : String → Bool

/-- Events of a transfer goroutine: uploads (with the forwarded
`excludeIgnored` flag and the oracle success result), downloads (with
the oracle success result), and the one-shot channel closes. -/
inductive TEvent
  | upload (name : String) (excludeIgnored : Bool) (ok : Bool)
  | closeInputChan
  | download (name : String) (ok : Bool)
  | closeOutputChan
deriving DecidableEq, Repr

/-- The body of the `for _, i := range inputs` loop in the input
goroutine: upload each input whose path is non-empty, in declared
order. -/
def uploadLoop (env : Env) (excl : Bool) : List Input → List TEvent
  | [] => []
  | i :: rest =>
    (if i.path ≠ "" then [TEvent.upload i.name excl (env.uploadOk i.name)] else [])
      ++ uploadLoop env excl rest

/-- The input goroutine spawned at execute.go:88-95: run the upload loop
sequentially, then `close(inputChan)`. -/
def inputGoroutine (env : Env) (excl : Bool) (inputs : List Input) : List TEvent :=
  uploadLoop env excl inputs ++ [TEvent.closeInputChan]

/-- One output goroutine spawned at execute.go:101-107: download if the
path is non-empty, then `close(outputChan)`. -/
def outputGoroutine (env : Env) (o : Output) : List TEvent :=
  (if o.path ≠ "" then [TEvent.download o.name (env.downloadOk o.name)] else [])
    ++ [TEvent.closeOutputChan]

/-- Events of the main execution path of `Execute`. -/
inductive Event
  | printExecutingBuild (id : Nat)
  | startSignalWatcher
  | notifySignals
  | startInputSequence
  | startDownloadTask (name : String)
  | callBuildEvents
  | render
  | closeEventFeed
  | waitInputChan
  | waitOutputChan (idx : Nat)
deriving DecidableEq, Repr

/-- How a run of `Execute` ends: an error returned to the caller, or
`os.Exit` with a code. -/
inductive Outcome
  | errored (e : String)
  | exited (code : Int)
deriving DecidableEq, Repr

/-- The observable result of one run of `Execute`: the main-path trace,
the outcome, and the traces of the spawned transfer goroutines
(`none` / `[]` when `Execute` returned before spawning them). -/
structure RunResult where
  mainTrace : List Event
  outcome : Outcome
  inputTask : Option (List TEvent)
  outputTasks : List (List TEvent)
deriving Repr

/-- Shallow embedding of `(*ExecuteCommand).Execute` (execute.go:29-130). -/
def Execute (cmd : ExecuteCommand) (env : Env) : RunResult :=
  match env.targetClient with
  | .error e => ⟨[], .errored e, none, []⟩
  | .ok _ =>
  match env.validateClient with
  | .error e => ⟨[], .errored e, none, []⟩
  | .ok _ =>
  match env.loadTaskConfig with
  | .error e => ⟨[], .errored e, none, []⟩
  | .ok _taskConfig =>
  match env.determineInputs with
  | .error e => ⟨[], .errored e, none, []⟩
  | .ok inputs =>
  match env.determineOutputs with
  | .error e => ⟨[], .errored e, none, []⟩
  | .ok outputs =>
  match env.createBuild with
  | .error e => ⟨[], .errored e, none, []⟩
  | .ok build =>
    let pre : List Event :=
      [Event.printExecutingBuild build.id, Event.startSignalWatcher,
        Event.notifySignals, Event.startInputSequence]
        ++ outputs.map (fun o => Event.startDownloadTask o.name)
    let inputTask := some (inputGoroutine env cmd.excludeIgnored inputs)
    let outputTasks := outputs.map (fun o => outputGoroutine env o)
    match env.buildEvents with
    | .error e => ⟨pre ++ [Event.callBuildEvents], .errored e, inputTask, outputTasks⟩
    | .ok _ =>
      ⟨pre
          ++ [Event.callBuildEvents, Event.render, Event.closeEventFeed,
              Event.waitInputChan]
          ++ (if outputs.length > 0 then
                (List.range outputs.length).map Event.waitOutputChan
              else []),
        .exited env.renderExit, inputTask, outputTasks⟩

/-- Events of the signal-watcher goroutine `abortOnSignal`. -/
inductive WEvent
  | stderrAborting
  | abortCall (buildId : Nat)
  | stderrFailedToAbort (e : String)
  | stderrExitingImmediately
deriving DecidableEq, Repr

/-- The observable result of the `abortOnSignal` goroutine: its
stderr/abort trace and the `os.Exit` code it forces, if any (`none`
when it is still blocked on a receive or has returned). -/
structure WatcherRun where
  trace : List WEvent
  exitCode : Option Nat
deriving DecidableEq, Repr

/-- Shallow embedding of `abortOnSignal` (execute.go:132-151).
`sigs` is the list of interrupt signals delivered through the buffered
`terminate` channel, in delivery order; `abortResult` is the oracle
result of the single `client.AbortBuild` call. -/
def abortOnSignal (sigs : List Unit) (abortResult : Except String Unit)
    (build : Build) : WatcherRun :=
  match sigs with
  | [] => ⟨[], none⟩
  | _ :: rest =>
    match abortResult with
    | .error e =>
      ⟨[WEvent.stderrAborting, WEvent.abortCall build.id,
          WEvent.stderrFailedToAbort e], none⟩
    | .ok _ =>
      match rest with
      | [] => ⟨[WEvent.stderrAborting, WEvent.abortCall build.id], none⟩
      | _ :: _ =>
        ⟨[WEvent.stderrAborting, WEvent.abortCall build.id,
            WEvent.stderrExitingImmediately], some 2⟩

/-- Recognizer for the `client.AbortBuild` call in a watcher trace. -/
def isAbortCall : WEvent → Bool
  | WEvent.abortCall _ => true
  | _ => false

/-- Number of `client.AbortBuild` calls a watcher run performed. -/
def abortCallCount (w : WatcherRun) : Nat :=
  (w.trace.filter isAbortCall).length

/-- Recognizer for the `go abortOnSignal(...)` spawn on the main path. -/
def isStartWatcher : Event → Bool
  | Event.startSignalWatcher => true
  | _ => false

/-- Recognizer for the `go func(o, outputChan)` spawns on the main path. -/
def isStartDownload : Event → Bool
  | Event.startDownloadTask _ => true
  | _ => false

/-- Recognizer for the channel receives of the join (`<-inputChan`,
`<-outputChan`). -/
def isWaitEvent : Event → Bool
  | Event.waitInputChan => true
  | Event.waitOutputChan _ => true
  | _ => false

/-- The subsequence of join receives of a main-path trace, in order. -/
def waitEvents (t : List Event) : List Event :=
  t.filter isWaitEvent

/-- The names uploaded by a transfer trace, in order. -/
def uploadNames (t : List TEvent) : List String :=
  t.filterMap fun e =>
    match e with
    | TEvent.upload n _ _ => some n
    | _ => none

/-- Number of times a transfer trace closes the shared input channel. -/
def closeInputCount (t : List TEvent) : Nat :=
  (t.filter fun e => e = TEvent.closeInputChan).length

/-- Number of times a transfer trace closes an output channel. -/
def closeOutputCount (t : List TEvent) : Nat :=
  (t.filter fun e => e = TEvent.closeOutputChan).length

/-- The main path of `Execute` succeeded at every external call up to
and including opening the event feed. -/
def Env.allOk (env : Env) : Prop :=
  env.targetClient = .ok () ∧
  env.validateClient = .ok () ∧
  (∃ tc, env.loadTaskConfig = .ok tc) ∧
  (∃ ins, env.determineInputs = .ok ins) ∧
  (∃ outs, env.determineOutputs = .ok outs) ∧
  (∃ b, env.createBuild = .ok b) ∧
  env.buildEvents = .ok ()

/-- A concrete fully-successful environment used by witnesses:
two inputs (one with an empty path), two outputs (one with an empty
path), consumer exit status 3. -/
def sampleEnv : Env where
  targetClient := .ok ()
  validateClient := .ok ()
  loadTaskConfig := .ok ⟨⟩
  determineInputs := .ok [⟨"dep", "/tmp/dep"⟩, ⟨"src", ""⟩]
  determineOutputs := .ok [⟨"out", "/tmp/out"⟩, ⟨"log", ""⟩]
  createBuild := .ok ⟨42⟩
  buildEvents := .ok ()
  renderExit := 3
  uploadOk := fun _ => true
  downloadOk := fun _ => true

/-- The command flags used by witnesses. -/
def sampleCmd : ExecuteCommand where
  excludeIgnored := false

/-- `sampleEnv` with every transfer failing: differs from `sampleEnv`
only in the transfer oracles. -/
def sampleEnvTransfersFail : Env :=
  { sampleEnv with uploadOk := fun _ => false, downloadOk := fun _ => false }

/-- `sampleEnv` with the consumer reporting task-level exit status 2. -/
def sampleEnvRender2 : Env := { sampleEnv with renderExit := 2 }

/-- `sampleEnv` with zero output bindings. -/
def sampleEnvNoOutputs : Env := { sampleEnv with determineOutputs := .ok [] }

/-- `sampleEnv` with `config.LoadTaskConfig` failing. -/
def sampleEnvLoadFails : Env :=
  { sampleEnv with loadTaskConfig := .error "bad config" }

/-- `sampleEnv` with `client.BuildEvents` failing. -/
def sampleEnvFeedFails : Env :=
  { sampleEnv with buildEvents := .error "events unavailable" }

lemma filter_map_eq_nil {α β : Type} (p : β → Bool) (f : α → β) (l : List α)
    (h : ∀ a, p (f a) = false) : (l.map f).filter p = [] := by
  induction l with
  | nil => rfl
  | cons a rest ih => simp [h, ih]

lemma filter_map_eq_self {α β : Type} (p : β → Bool) (f : α → β) (l : List α)
    (h : ∀ a, p (f a) = true) : (l.map f).filter p = l.map f := by
  induction l with
  | nil => rfl
  | cons a rest ih => simp [h, ih]

lemma uploadLoop_append (env : Env) (excl : Bool) (a b : List Input) :
    uploadLoop env excl (a ++ b) = uploadLoop env excl a ++ uploadLoop env excl b := by
  induction a with
  | nil => rfl
  | cons x rest ih => simp [uploadLoop, ih]

lemma uploadNames_append (s t : List TEvent) :
    uploadNames (s ++ t) = uploadNames s ++ uploadNames t := by
  simp [uploadNames, List.filterMap_append]

lemma uploadNames_cons_upload (n : String) (excl ok : Bool) (t : List TEvent) :
    uploadNames (TEvent.upload n excl ok :: t) = n :: uploadNames t := rfl

lemma uploadNames_uploadLoop (env : Env) (excl : Bool) (inputs : List Input) :
    uploadNames (uploadLoop env excl inputs) =
      (inputs.filter fun i => i.path ≠ "").map Input.name := by
  induction inputs with
  | nil => rfl
  | cons i rest ih =>
    by_cases hp : i.path = "" <;>
      simp [uploadLoop, List.filter_cons, hp, uploadNames_cons_upload, ih]

lemma closeInput_filter_uploadLoop (env : Env) (excl : Bool) (inputs : List Input) :
    (uploadLoop env excl inputs).filter (fun e => e = TEvent.closeInputChan) = [] := by
  induction inputs with
  | nil => rfl
  | cons i rest ih =>
    by_cases hp : i.path = "" <;>
      simp [uploadLoop, List.filter_append, List.filter_cons, hp, ih]

lemma closeInputCount_inputGoroutine (env : Env) (excl : Bool) (inputs : List Input) :
    closeInputCount (inputGoroutine env excl inputs) = 1 := by
  unfold closeInputCount inputGoroutine
  rw [List.filter_append, closeInput_filter_uploadLoop]
  rfl

/-- Claim C1, counterexample: two interrupt signals are delivered but the
abort call fails; contrary to the claim, the watcher does not terminate
the process with the forced-exit code 2 (it has already returned). -/
theorem claim1_counterexample :
    ¬ ((abortOnSignal [(), ()] (Except.error "connection refused")
        ⟨42⟩).exitCode = some 2) := by
  simp [abortOnSignal]

/-- Claim C1, amended: after a first interrupt, a second interrupt
(delivered at any later time, including buffered while the abort call is
in flight) terminates the process with exit code 2 provided the abort
call succeeded; when the abort call failed, the watcher has returned and
no number of further interrupts terminates the process. -/
theorem claim1_second_interrupt_amended (s1 s2 : Unit) (rest : List Unit)
    (b : Build) (e : String) :
    (abortOnSignal (s1 :: s2 :: rest) (Except.ok ()) b).exitCode = some 2 ∧
    (abortOnSignal (s1 :: s2 :: rest) (Except.error e) b).exitCode = none := by
  constructor <;> rfl

/-- Claim C2: with no interrupt and every external call up to the event
feed succeeding, the process exit code is exactly the integer returned
by `eventstream.Render`, and an environment differing only in the
transfer oracles (upload/download success or failure) produces the same
exit code. -/
theorem claim2_exit_code_from_consumer (cmd : ExecuteCommand) (e1 e2 : Env)
    (h : e1.allOk)
    (h1 : e2.targetClient = e1.targetClient)
    (h2 : e2.validateClient = e1.validateClient)
    (h3 : e2.loadTaskConfig = e1.loadTaskConfig)
    (h4 : e2.determineInputs = e1.determineInputs)
    (h5 : e2.determineOutputs = e1.determineOutputs)
    (h6 : e2.createBuild = e1.createBuild)
    (h7 : e2.buildEvents = e1.buildEvents)
    (h8 : e2.renderExit = e1.renderExit) :
    (Execute cmd e1).outcome = Outcome.exited e1.renderExit ∧
    (Execute cmd e2).outcome = Outcome.exited e1.renderExit := by
  obtain ⟨ha, hb, ⟨tc, hc⟩, ⟨ins, hd⟩, ⟨outs, he⟩, ⟨b, hf⟩, hg⟩ := h
  constructor
  · simp [Execute, ha, hb, hc, hd, he, hf, hg]
  · simp [Execute, h1, h2, h3, h4, h5, h6, h7, h8, ha, hb, hc, hd, he, hf, hg]

/-- Claim C2, witness: in `sampleEnv` the consumer returns 3 and the
process exits 3, and the same run with every transfer failing still
exits 3. -/
theorem claim2_exit_code_from_consumer_witness :
    (Execute sampleCmd sampleEnv).outcome = Outcome.exited 3 ∧
    (Execute sampleCmd sampleEnvTransfersFail).outcome = Outcome.exited 3 :=
  claim2_exit_code_from_consumer sampleCmd sampleEnv sampleEnvTransfersFail
    ⟨rfl, rfl, ⟨⟨⟩, rfl⟩, ⟨_, rfl⟩, ⟨_, rfl⟩, ⟨_, rfl⟩, rfl⟩
    rfl rfl rfl rfl rfl rfl rfl rfl

/-- Claim C3: no matter how many interrupt signals are delivered and
whether the abort call succeeds or fails, the watcher issues at most one
`AbortBuild` call; and on every run, the main path spawns the watcher at
most once. -/
theorem claim3_at_most_one_abort :
    (∀ (sigs : List Unit) (r : Except String Unit) (b : Build),
      abortCallCount (abortOnSignal sigs r b) ≤ 1) ∧
    (∀ (cmd : ExecuteCommand) (env : Env),
      ((Execute cmd env).mainTrace.filter isStartWatcher).length ≤ 1) := by
  constructor
  · intro sigs r b
    match sigs, r with
    | [], _ => simp [abortOnSignal, abortCallCount]
    | _ :: rest, .error e => simp [abortOnSignal, abortCallCount, isAbortCall]
    | _ :: [], .ok _ => simp [abortOnSignal, abortCallCount, isAbortCall]
    | _ :: _ :: _, .ok _ => simp [abortOnSignal, abortCallCount, isAbortCall]
  · intro cmd env
    unfold Execute
    repeat' split
    all_goals
      simp [List.filter_append, isStartWatcher,
        filter_map_eq_nil isStartWatcher
          (fun o : Output => Event.startDownloadTask o.name) _ (fun _ => rfl),
        filter_map_eq_nil isStartWatcher Event.waitOutputChan _ (fun _ => rfl)]

/-- Claim C7: when the abort call fails, the failure is reported on the
error stream, the watcher never escalates to a forced exit, and the main
orchestration path is unaffected: it still streams, closes the feed,
joins the transfers and exits with the consumer's code. -/
theorem claim7_abort_failure_nonfatal (cmd : ExecuteCommand) (env : Env)
    (h : env.allOk) (sigs : List Unit) (hs : sigs ≠ [])
    (e : String) (b : Build) :
    WEvent.stderrFailedToAbort e ∈ (abortOnSignal sigs (.error e) b).trace ∧
    (abortOnSignal sigs (.error e) b).exitCode = none ∧
    Event.closeEventFeed ∈ (Execute cmd env).mainTrace ∧
    (Execute cmd env).outcome = Outcome.exited env.renderExit := by
  obtain ⟨ha, hb, ⟨tc, hc⟩, ⟨ins, hd⟩, ⟨outs, he⟩, ⟨bb, hf⟩, hg⟩ := h
  cases sigs with
  | nil => exact absurd rfl hs
  | cons s rest =>
    refine ⟨?_, ?_, ?_, ?_⟩
    · simp [abortOnSignal]
    · simp [abortOnSignal]
    · simp [Execute, ha, hb, hc, hd, he, hf, hg]
    · simp [Execute, ha, hb, hc, hd, he, hf, hg]

/-- Claim C7, witness: concrete run with a failing abort call. -/
theorem claim7_abort_failure_nonfatal_witness :
    WEvent.stderrFailedToAbort "forbidden" ∈
      (abortOnSignal [()] (.error "forbidden") ⟨42⟩).trace ∧
    (abortOnSignal [()] (.error "forbidden") ⟨42⟩).exitCode = none ∧
    Event.closeEventFeed ∈ (Execute sampleCmd sampleEnv).mainTrace ∧
    (Execute sampleCmd sampleEnv).outcome = Outcome.exited 3 :=
  claim7_abort_failure_nonfatal sampleCmd sampleEnv
    ⟨rfl, rfl, ⟨⟨⟩, rfl⟩, ⟨_, rfl⟩, ⟨_, rfl⟩, ⟨_, rfl⟩, rfl⟩
    [()] (by simp) "forbidden" ⟨42⟩

/-- Claim C8, counterexample: the forced-exit code is 2, but the
Execution Stream Consumer can itself report 2 as the task-level exit
status, so the forced code is not distinct from task-level codes. -/
theorem claim8_counterexample :
    (Execute sampleCmd sampleEnvRender2).outcome = Outcome.exited 2 ∧
    (abortOnSignal [(), ()] (Except.ok ()) ⟨42⟩).exitCode = some 2 := by
  constructor <;> rfl

/-- Claim C8, amended: every forced termination by the watcher uses the
one fixed non-zero code 2 (but that code is not distinct from the
task-level codes the consumer can report). -/
theorem claim8_fixed_forced_code (sigs : List Unit) (r : Except String Unit)
    (b : Build) (c : Nat)
    (h : (abortOnSignal sigs r b).exitCode = some c) :
    c = 2 ∧ c ≠ 0 := by
  match sigs, r with
  | [], _ => simp [abortOnSignal] at h
  | _ :: rest, .error e => simp [abortOnSignal] at h
  | _ :: [], .ok _ => simp [abortOnSignal] at h
  | _ :: _ :: _, .ok _ =>
    simp [abortOnSignal] at h
    omega

/-- Claim C8, witness: the forced-exit path at a concrete input. -/
theorem claim8_fixed_forced_code_witness :
    (abortOnSignal [(), ()] (Except.ok ()) ⟨42⟩).exitCode = some 2 ∧
    (2 = 2 ∧ 2 ≠ 0) :=
  ⟨rfl, claim8_fixed_forced_code [(), ()] (Except.ok ()) ⟨42⟩ 2 rfl⟩

/-- Claim C4: the run spawns the input uploads as one sequential
goroutine whose trace uploads exactly the non-empty-path inputs in
declared order and closes the one shared input channel exactly once,
and the join's receives are the input-channel receive first, followed by
the output-channel receives. -/
theorem claim4_input_sequence_and_join_order (cmd : ExecuteCommand) (env : Env)
    (h1 : env.targetClient = .ok ()) (h2 : env.validateClient = .ok ())
    (tc : TaskConfig) (h3 : env.loadTaskConfig = .ok tc)
    (ins : List Input) (h4 : env.determineInputs = .ok ins)
    (outs : List Output) (h5 : env.determineOutputs = .ok outs)
    (b : Build) (h6 : env.createBuild = .ok b)
    (h7 : env.buildEvents = .ok ()) :
    (Execute cmd env).inputTask =
      some (inputGoroutine env cmd.excludeIgnored ins) ∧
    uploadNames (inputGoroutine env cmd.excludeIgnored ins) =
      (ins.filter fun i => i.path ≠ "").map Input.name ∧
    closeInputCount (inputGoroutine env cmd.excludeIgnored ins) = 1 ∧
    waitEvents (Execute cmd env).mainTrace =
      Event.waitInputChan :: (List.range outs.length).map Event.waitOutputChan := by
  refine ⟨?_, ?_, ?_, ?_⟩
  · simp [Execute, h1, h2, h3, h4, h5, h6, h7]
  · rw [inputGoroutine, uploadNames_append, uploadNames_uploadLoop,
      show uploadNames [TEvent.closeInputChan] = [] from rfl, List.append_nil]
  · exact closeInputCount_inputGoroutine env cmd.excludeIgnored ins
  · cases outs with
    | nil =>
      simp [Execute, h1, h2, h3, h4, h5, h6, h7, waitEvents, List.filter_append,
        isWaitEvent]
    | cons o rest =>
      simp [Execute, h1, h2, h3, h4, h5, h6, h7, waitEvents, List.filter_append,
        isWaitEvent,
        filter_map_eq_nil isWaitEvent
          (fun o : Output => Event.startDownloadTask o.name) _ (fun _ => rfl),
        filter_map_eq_self isWaitEvent Event.waitOutputChan _ (fun _ => rfl)]

/-- Claim C4, witness: the sample run with inputs
`[dep ↦ /tmp/dep, src ↦ (no path)]` and two outputs. -/
theorem claim4_input_sequence_and_join_order_witness :
    (Execute sampleCmd sampleEnv).inputTask =
      some (inputGoroutine sampleEnv sampleCmd.excludeIgnored
        [⟨"dep", "/tmp/dep"⟩, ⟨"src", ""⟩]) ∧
    uploadNames (inputGoroutine sampleEnv sampleCmd.excludeIgnored
        [⟨"dep", "/tmp/dep"⟩, ⟨"src", ""⟩]) =
      (([⟨"dep", "/tmp/dep"⟩, ⟨"src", ""⟩] : List Input).filter
        fun i => i.path ≠ "").map Input.name ∧
    closeInputCount (inputGoroutine sampleEnv sampleCmd.excludeIgnored
        [⟨"dep", "/tmp/dep"⟩, ⟨"src", ""⟩]) = 1 ∧
    waitEvents (Execute sampleCmd sampleEnv).mainTrace =
      Event.waitInputChan ::
        (List.range ([⟨"out", "/tmp/out"⟩, ⟨"log", ""⟩] : List Output).length).map
          Event.waitOutputChan :=
  claim4_input_sequence_and_join_order sampleCmd sampleEnv rfl rfl ⟨⟩ rfl
    [⟨"dep", "/tmp/dep"⟩, ⟨"src", ""⟩] rfl
    [⟨"out", "/tmp/out"⟩, ⟨"log", ""⟩] rfl ⟨42⟩ rfl rfl

/-- Claim C5: an output binding with an empty local path produces a task
that performs no download and closes its channel exactly once; an input
binding with an empty local path contributes nothing to the input
sequence (removing it leaves the trace unchanged, so it cannot block the
rest), and the shared input channel is still closed exactly once. -/
theorem claim5_empty_path_noop (env : Env) (excl : Bool)
    (o : Output) (ho : o.path = "")
    (i : Input) (hi : i.path = "")
    (pre post : List Input) :
    outputGoroutine env o = [TEvent.closeOutputChan] ∧
    closeOutputCount (outputGoroutine env o) = 1 ∧
    inputGoroutine env excl (pre ++ i :: post) =
      inputGoroutine env excl (pre ++ post) ∧
    closeInputCount (inputGoroutine env excl (pre ++ i :: post)) = 1 := by
  refine ⟨?_, ?_, ?_, ?_⟩
  · simp [outputGoroutine, ho]
  · simp [outputGoroutine, ho, closeOutputCount]
  · simp [inputGoroutine, uploadLoop_append, uploadLoop, hi]
  · exact closeInputCount_inputGoroutine env excl _

/-- Claim C5, witness: the no-path output `log` and the no-path input
`src` from the sample run. -/
theorem claim5_empty_path_noop_witness :
    outputGoroutine sampleEnv ⟨"log", ""⟩ = [TEvent.closeOutputChan] ∧
    closeOutputCount (outputGoroutine sampleEnv ⟨"log", ""⟩) = 1 ∧
    inputGoroutine sampleEnv false ([⟨"dep", "/tmp/dep"⟩] ++ ⟨"src", ""⟩ :: []) =
      inputGoroutine sampleEnv false ([⟨"dep", "/tmp/dep"⟩] ++ []) ∧
    closeInputCount
      (inputGoroutine sampleEnv false ([⟨"dep", "/tmp/dep"⟩] ++ ⟨"src", ""⟩ :: [])) = 1 :=
  claim5_empty_path_noop sampleEnv false ⟨"log", ""⟩ rfl ⟨"src", ""⟩ rfl
    [⟨"dep", "/tmp/dep"⟩] []

/-- Claim C6: with zero output bindings, no download goroutine is
spawned, no `startDownloadTask` appears on the main path, the join's
receives consist of the input-channel receive alone (the output-wait
step is skipped), and the run exits with the consumer's code. -/
theorem claim6_zero_outputs (cmd : ExecuteCommand) (env : Env)
    (h1 : env.targetClient = .ok ()) (h2 : env.validateClient = .ok ())
    (tc : TaskConfig) (h3 : env.loadTaskConfig = .ok tc)
    (ins : List Input) (h4 : env.determineInputs = .ok ins)
    (h5 : env.determineOutputs = .ok [])
    (b : Build) (h6 : env.createBuild = .ok b)
    (h7 : env.buildEvents = .ok ()) :
    (Execute cmd env).outputTasks = [] ∧
    (Execute cmd env).mainTrace.filter isStartDownload = [] ∧
    waitEvents (Execute cmd env).mainTrace = [Event.waitInputChan] ∧
    (Execute cmd env).outcome = Outcome.exited env.renderExit := by
  refine ⟨?_, ?_, ?_, ?_⟩ <;>
    simp [Execute, h1, h2, h3, h4, h5, h6, h7, waitEvents, List.filter_append,
      isWaitEvent, isStartDownload]

/-- Claim C6, witness: the sample run with its outputs removed. -/
theorem claim6_zero_outputs_witness :
    (Execute sampleCmd sampleEnvNoOutputs).outputTasks = [] ∧
    (Execute sampleCmd sampleEnvNoOutputs).mainTrace.filter isStartDownload = [] ∧
    waitEvents (Execute sampleCmd sampleEnvNoOutputs).mainTrace =
      [Event.waitInputChan] ∧
    (Execute sampleCmd sampleEnvNoOutputs).outcome = Outcome.exited 3 :=
  claim6_zero_outputs sampleCmd sampleEnvNoOutputs rfl rfl ⟨⟩ rfl
    [⟨"dep", "/tmp/dep"⟩, ⟨"src", ""⟩] rfl rfl ⟨42⟩ rfl rfl

/-- Claim C9: when client validation, task-config loading, input
resolution, output resolution or build creation fails, `Execute` returns
that error with an empty main-path trace (no signal watcher spawned, no
transfer goroutine spawned, no event feed call) and the run produces no
task exit code. -/
theorem claim9_early_errors (cmd : ExecuteCommand) (env : Env) (e : String)
    (h : env.targetClient = .error e ∨
      env.targetClient = .ok () ∧ (env.validateClient = .error e ∨
        env.validateClient = .ok () ∧ (env.loadTaskConfig = .error e ∨
          (∃ tc, env.loadTaskConfig = .ok tc) ∧ (env.determineInputs = .error e ∨
            (∃ ins, env.determineInputs = .ok ins) ∧
              (env.determineOutputs = .error e ∨
                (∃ outs, env.determineOutputs = .ok outs) ∧
                  env.createBuild = .error e))))) :
    (Execute cmd env).mainTrace = [] ∧
    (Execute cmd env).outcome = Outcome.errored e ∧
    (Execute cmd env).inputTask = none ∧
    (Execute cmd env).outputTasks = [] ∧
    ∀ c, (Execute cmd env).outcome ≠ Outcome.exited c := by
  rcases h with h1 |
    ⟨h1, h2 | ⟨h2, h3 | ⟨⟨tc, h3⟩, h4 | ⟨⟨ins, h4⟩, h5 | ⟨⟨outs, h5⟩, h6⟩⟩⟩⟩⟩
  all_goals simp [Execute, *]

/-- Claim C9, witness: the sample run with `config.LoadTaskConfig`
failing. -/
theorem claim9_early_errors_witness :
    (Execute sampleCmd sampleEnvLoadFails).mainTrace = [] ∧
    (Execute sampleCmd sampleEnvLoadFails).outcome =
      Outcome.errored "bad config" ∧
    (Execute sampleCmd sampleEnvLoadFails).inputTask = none ∧
    (Execute sampleCmd sampleEnvLoadFails).outputTasks = [] ∧
    ∀ c, (Execute sampleCmd sampleEnvLoadFails).outcome ≠ Outcome.exited c :=
  claim9_early_errors sampleCmd sampleEnvLoadFails "bad config"
    (Or.inr ⟨rfl, Or.inr ⟨rfl, Or.inl rfl⟩⟩)

/-- Claim C10: when opening the event feed fails after the transfer
goroutines have been spawned, `Execute` returns that error immediately:
it never closes an event feed, performs none of the join's receives, and
does not exit through the task exit-code path. -/
theorem claim10_feed_open_failure (cmd : ExecuteCommand) (env : Env) (e : String)
    (h1 : env.targetClient = .ok ()) (h2 : env.validateClient = .ok ())
    (tc : TaskConfig) (h3 : env.loadTaskConfig = .ok tc)
    (ins : List Input) (h4 : env.determineInputs = .ok ins)
    (outs : List Output) (h5 : env.determineOutputs = .ok outs)
    (b : Build) (h6 : env.createBuild = .ok b)
    (h7 : env.buildEvents = .error e) :
    (Execute cmd env).outcome = Outcome.errored e ∧
    (Execute cmd env).inputTask =
      some (inputGoroutine env cmd.excludeIgnored ins) ∧
    Event.closeEventFeed ∉ (Execute cmd env).mainTrace ∧
    waitEvents (Execute cmd env).mainTrace = [] ∧
    ∀ c, (Execute cmd env).outcome ≠ Outcome.exited c := by
  refine ⟨?_, ?_, ?_, ?_, ?_⟩ <;>
    simp [Execute, h1, h2, h3, h4, h5, h6, h7, waitEvents, List.filter_append,
      isWaitEvent,
      filter_map_eq_nil isWaitEvent
        (fun o : Output => Event.startDownloadTask o.name) _ (fun _ => rfl)]

/-- Claim C10, witness: the sample run with `client.BuildEvents`
failing. -/
theorem claim10_feed_open_failure_witness :
    (Execute sampleCmd sampleEnvFeedFails).outcome =
      Outcome.errored "events unavailable" ∧
    (Execute sampleCmd sampleEnvFeedFails).inputTask =
      some (inputGoroutine sampleEnvFeedFails sampleCmd.excludeIgnored
        [⟨"dep", "/tmp/dep"⟩, ⟨"src", ""⟩]) ∧
    Event.closeEventFeed ∉ (Execute sampleCmd sampleEnvFeedFails).mainTrace ∧
    waitEvents (Execute sampleCmd sampleEnvFeedFails).mainTrace = [] ∧
    ∀ c, (Execute sampleCmd sampleEnvFeedFails).outcome ≠ Outcome.exited c :=
  claim10_feed_open_failure sampleCmd sampleEnvFeedFails "events unavailable"
    rfl rfl ⟨⟩ rfl [⟨"dep", "/tmp/dep"⟩, ⟨"src", ""⟩] rfl
    [⟨"out", "/tmp/out"⟩, ⟨"log", ""⟩] rfl ⟨42⟩ rfl rfl

end FlyExecute
